import Mathlib

/-! Verification development for the webgpu-quickdraw renderer library.

The file shallowly embeds the library's matrix/vector math module
(`Mat4`, `Vec`), the primitive mesh generators (`Primitives`) and the
render-object/pipeline registry (`Renderer`) from the TypeScript source,
and proves or refutes the specification's claims about them.

Modelling conventions:
* JavaScript numbers are embedded as exact reals (`ℝ`) where the code uses
  trigonometry/square roots, and as rationals (`ℚ`) where the code is pure
  field arithmetic; floating-point rounding is not modelled.  Division by
  zero in ℝ/ℚ is the Lean `x / 0 = 0` convention whereas JavaScript
  produces non-finite values; no theorem below depends on the value of a
  division whose divisor can be zero, only on the fact that the source
  performs the division and returns normally instead of throwing.
* A TypeScript function that can throw is embedded with result type
  `Except RendererError _`; a function with no throw site in its body is
  embedded as always returning `Except.ok` (the wrapper records the absent
  error channel so that claims about error behavior are statable).
* Flat `Float32Array(16)` column-major matrices are embedded as the
  16-field structure `Mat`, field `eI` being `dst[I]` of the source.
-/

namespace Quickdraw

/-- Errors thrown by the library.  Each constructor corresponds to one
`throw new Error(...)` site in the source, except `typeErrorUndefined`,
which stands for the implicit TypeError JavaScript raises when a property
of `undefined` is accessed (e.g. `pipe.objects` when the pipeline lookup
returned `undefined`). -/
inductive RendererError where
  | pipelineNotFound (id : Nat)
  | objectNotFound (id : Nat)
  | textureNotFound (id : Nat)
  | notEnoughVertices
  | zeroMagnitude
  | sidesTooFew
  | typeErrorUndefined
  deriving DecidableEq

/-- A 4x4 matrix stored as 16 numbers in column-major order, mirroring the
flat `Float32Array(16)` layout of the source: field `eI` is `dst[I]`. -/
structure Mat where
  (e0 e1 e2 e3 e4 e5 e6 e7 e8 e9 e10 e11 e12 e13 e14 e15 : ℝ)

namespace Mat4

/-- Mat4.identity from mat4.ts. -/
def identity : Mat :=
  ⟨1, 0, 0, 0,
   0, 1, 0, 0,
   0, 0, 1, 0,
   0, 0, 0, 1⟩

/-- Mat4.translate from mat4.ts. -/
def translate (x y z : ℝ) : Mat :=
  ⟨1, 0, 0, 0,
   0, 1, 0, 0,
   0, 0, 1, 0,
   x, y, z, 1⟩

/-- Mat4.scale from mat4.ts. -/
def scale (x y z : ℝ) : Mat :=
  ⟨x, 0, 0, 0,
   0, y, 0, 0,
   0, 0, z, 0,
   0, 0, 0, 1⟩

/-- Mat4.rotate from mat4.ts: normalizes the axis by its Euclidean norm,
then builds the axis-angle rotation matrix.  The source has no validation:
a zero axis silently produces NaN entries (here: divisions by `n = 0`). -/
noncomputable def rotate (axis : ℝ × ℝ × ℝ) (deg : ℝ) : Mat :=
  let n := Real.sqrt (axis.1 * axis.1 + axis.2.1 * axis.2.1 + axis.2.2 * axis.2.2)
  let x := axis.1 / n
  let y := axis.2.1 / n
  let z := axis.2.2 / n
  let xx := x * x
  let yy := y * y
  let zz := z * z
  let c := Real.cos deg
  let s := Real.sin deg
  let o := 1 - c
  ⟨xx + (1 - xx) * c, x * y * o + z * s, x * z * o - y * s, 0,
   x * y * o - z * s, yy + (1 - yy) * c, y * z * o + x * s, 0,
   x * z * o + y * s, y * z * o - x * s, zz + (1 - zz) * c, 0,
   0, 0, 0, 1⟩

/-- Mat4.multiply from mat4.ts, entry for entry (`aCR` is `a[4*C + R]`). -/
def multiply (a b : Mat) : Mat :=
  let a00 := a.e0
  let a01 := a.e1
  let a02 := a.e2
  let a03 := a.e3
  let a10 := a.e4
  let a11 := a.e5
  let a12 := a.e6
  let a13 := a.e7
  let a20 := a.e8
  let a21 := a.e9
  let a22 := a.e10
  let a23 := a.e11
  let a30 := a.e12
  let a31 := a.e13
  let a32 := a.e14
  let a33 := a.e15
  let b00 := b.e0
  let b01 := b.e1
  let b02 := b.e2
  let b03 := b.e3
  let b10 := b.e4
  let b11 := b.e5
  let b12 := b.e6
  let b13 := b.e7
  let b20 := b.e8
  let b21 := b.e9
  let b22 := b.e10
  let b23 := b.e11
  let b30 := b.e12
  let b31 := b.e13
  let b32 := b.e14
  let b33 := b.e15
  ⟨a00 * b00 + a10 * b01 + a20 * b02 + a30 * b03,
   a01 * b00 + a11 * b01 + a21 * b02 + a31 * b03,
   a02 * b00 + a12 * b01 + a22 * b02 + a32 * b03,
   a03 * b00 + a13 * b01 + a23 * b02 + a33 * b03,
   a00 * b10 + a10 * b11 + a20 * b12 + a30 * b13,
   a01 * b10 + a11 * b11 + a21 * b12 + a31 * b13,
   a02 * b10 + a12 * b11 + a22 * b12 + a32 * b13,
   a03 * b10 + a13 * b11 + a23 * b12 + a33 * b13,
   a00 * b20 + a10 * b21 + a20 * b22 + a30 * b23,
   a01 * b20 + a11 * b21 + a21 * b22 + a31 * b23,
   a02 * b20 + a12 * b21 + a22 * b22 + a32 * b23,
   a03 * b20 + a13 * b21 + a23 * b22 + a33 * b23,
   a00 * b30 + a10 * b31 + a20 * b32 + a30 * b33,
   a01 * b30 + a11 * b31 + a21 * b32 + a31 * b33,
   a02 * b30 + a12 * b31 + a22 * b32 + a32 * b33,
   a03 * b30 + a13 * b31 + a23 * b32 + a33 * b33⟩

/-- The matrix built by Mat4.ortho (the `new Float32Array([...])` literal
of the source, split into a named definition so theorems can refer to the
returned payload). -/
noncomputable def orthoM (left right top bottom near far : ℝ) : Mat :=
  ⟨2 / (right - left), 0, 0, 0,
   0, 2 / (top - bottom), 0, 0,
   0, 0, 1 / (near - far), 0,
   (right + left) / (left - right), (top + bottom) / (bottom - top),
     near / (near - far), 1⟩

/-- Mat4.ortho from short-webgpu/mat4.ts (lines 19-50 region).  The source
performs the divisions unconditionally and returns; there is no check for
`near == far` and no throw site, hence the result is always `Except.ok`. -/
noncomputable def ortho (left right top bottom near far : ℝ) :
    Except RendererError Mat :=
  .ok (orthoM left right top bottom near far)

/-- The matrix built by Mat4.perspective, as a named payload. -/
noncomputable def perspectiveM (fovY aspect zNear zFar : ℝ) : Mat :=
  let f := Real.tan (Real.pi * 0.5 - 0.5 * fovY * Real.pi / 180)
  let rangeInv := 1 / (zNear - zFar)
  let a := f / aspect
  let c := zFar * rangeInv
  let d := zNear * zFar * rangeInv
  ⟨a, 0, 0, 0,
   0, f, 0, 0,
   0, 0, c, -1,
   0, 0, d, 0⟩

/-- Mat4.perspective from mat4.ts.  As with `ortho`, the source divides by
`zNear - zFar` unconditionally and never throws. -/
noncomputable def perspective (fovY aspect zNear zFar : ℝ) :
    Except RendererError Mat :=
  .ok (perspectiveM fovY aspect zNear zFar)

/-- Modelled from the spec: `Mat4.view_rot` is called by
`Renderer.updateObject` (part_006 line 1207) but the library's `mat4.ts`
file defining it is not among the provided sources; the spec says only
that the view matrix is built from the camera's translate/lookAt/up.  Its
entries are irrelevant to every claim below (no claim passes a camera), so
it is modelled as an unconstrained placeholder function of its
arguments. -/
def view_rot (_pos _lookAt _up : ℝ × ℝ × ℝ) : Mat := identity

end Mat4

namespace Vec

/-- Vec.normalize from vec.ts (part_012 lines 89-95): computes the
magnitude as `v.reduce((p, v) => p += Math.abs(v), 0)` — the sum of the
absolute values of the components — throws when that sum is `<= 0`, and
otherwise divides every component by it. -/
def normalize (v : List ℚ) : Except RendererError (List ℚ) :=
  let m := v.foldl (fun p x => p + |x|) 0
  if m ≤ 0 then .error .zeroMagnitude
  else .ok (v.map (fun x => x / m))

end Vec

namespace Primitives

/-- A generated shape: parallel vertex/uv/normal sequences and an optional
triangle index sequence (interface Shape of the library index file). -/
structure Shape where
  vertices : List (ℝ × ℝ × ℝ)
  uvs : List (ℝ × ℝ)
  normals : List (ℝ × ℝ × ℝ)
  index : Option (List ℕ)

/-- Primitives.cone from src/src/primitives.ts lines 277-327 (the file
variant whose generators check `sides < 3`).  The imperative array pushes
are staged as list appends in source order: top apex, `sides+1` side
points with their fan indexing, bottom center, `sides` bottom-rim points
with their fan indexing, and the final closing face. -/
noncomputable def cone (radius height : ℝ) (sides : ℕ) : Except RendererError Shape :=
  if sides < 3 then .error .sidesTooFew
  else
    -- build top
    let verts1 : List (ℝ × ℝ × ℝ) := [(0, height, 0)]
    let uvs1 : List (ℝ × ℝ) := [(0.5, 1)]
    let normals1 : List (ℝ × ℝ × ℝ) := [(0, 1, 0)]
    -- build sides: for (i = 0; i < sides+1; i++)
    let verts2 := verts1 ++ (List.range (sides + 1)).map (fun i =>
      (Real.cos (2 * Real.pi * i / sides) * radius, 0,
       Real.sin (2 * Real.pi * i / sides) * radius))
    let uvs2 := uvs1 ++ (List.range (sides + 1)).map (fun i =>
      ((i : ℝ) / (sides : ℝ), 0))
    let normals2 := normals1 ++ (List.range (sides + 1)).map (fun i =>
      (Real.cos (2 * Real.pi * i / sides), 0, Real.sin (2 * Real.pi * i / sides)))
    -- generate indexing: for (i = 1; i < vertices.length-1; i++) push(i+1, i, 0)
    let index1 := ((List.range (verts2.length - 2)).map (fun k =>
      [k + 2, k + 1, 0])).flatten
    -- build bottom center
    let verts3 := verts2 ++ [(0, 0, 0)]
    let uvs3 := uvs2 ++ [(0.5, 0.5)]
    let normals3 := normals2 ++ [(0, -1, 0)]
    let new0 := verts3.length
    -- build bottom: for (i = 0; i < sides; i++)
    let verts4 := verts3 ++ (List.range sides).map (fun i =>
      (Real.cos (2 * Real.pi * i / sides) * radius, 0,
       Real.sin (2 * Real.pi * i / sides) * radius))
    let uvs4 := uvs3 ++ (List.range sides).map (fun i =>
      ((1 + Real.cos (2 * Real.pi * i / sides)) / 2,
       (1 - Real.sin (2 * Real.pi * i / sides)) / 2))
    let normals4 := normals3 ++ (List.range sides).map (fun _ =>
      ((0 : ℝ), -1, 0))
    -- generate index: for (i = new0; i < vertices.length; i++) push(i, i+1, new0-1)
    let index2 := index1 ++ ((List.range (verts4.length - new0)).map (fun k =>
      [new0 + k, new0 + k + 1, new0 - 1])).flatten
    -- final face joins back to first vertex
    let index3 := index2 ++ [verts4.length - 1, new0, new0 - 1]
    .ok { vertices := verts4, uvs := uvs4, normals := normals4, index := some index3 }

end Primitives

/-- GPUSupportedLimits, restricted to the two alignment limits the
registry reads. -/
structure Limits where
  minUniformBufferOffsetAlignment : ℕ
  minStorageBufferOffsetAlignment : ℕ
  deriving DecidableEq

/-- interface RenderObject of the library index file, as used by
part_006.  The GPU vertex/uv/normal/index buffers hold data no registry
operation ever reads back, so only their metadata is kept (`hasIndexBuffer`
records whether an index buffer was created); `pipelineIndex` is the
object's slot index into its pipeline's shared mvp uniform buffer. -/
structure RenderObject where
  visible : Bool
  vertexCount : ℕ
  pipelineIndex : ℕ
  hasIndexBuffer : Bool
  indexCount : Option ℕ
  instances : ℕ
  deriving DecidableEq

/-- RenderBindGroup for bind group 0: the shared mvp uniform buffer
`entries[0]`, modelled by its byte size and its contents — a map sending
the byte address of each 4-byte float to that float's value. -/
structure BindGroup0 where
  size : ℕ
  entry0 : ℕ → ℝ

/-- RenderBindGroup for the optional custom bind group 1: one buffer per
uniform description plus the `dynRef` dynamic-offset flags. -/
structure BindGroup1 where
  entries : List (ℕ → ℝ)
  dynRef : List Bool

/-- interface RenderPipeline of the library index file: objects list,
creation-time capacity and bind groups.  The compiled GPURenderPipeline
carries no registry-observable state; bindGroup2/bindGroup3 are never
assigned anywhere in the source and are omitted. -/
structure RenderPipeline where
  objects : List RenderObject
  maxObjCount : ℕ
  bindGroup0 : BindGroup0
  bindGroup1 : Option BindGroup1

/-- Renderer instance state: device limits, canvas dimensions, and the
pipeline/texture registries.  The device, context and MSAA/depth textures
carry no claim-observable state; `textures` is the number of textures in
the cache (each texture itself being an opaque GPU handle).  A value of
this type models an initialized renderer, as produced by `Renderer.init`. -/
structure Renderer where
  limits : Limits
  width : ℝ
  height : ℝ
  pipelines : List RenderPipeline
  textures : ℕ

/-- Camera objects as produced by Renderer.makeCamera. -/
inductive Camera where
  | ortho (near far : ℝ) (translate lookAt up : ℝ × ℝ × ℝ)
  | persp (fovY near far : ℝ) (translate lookAt up : ℝ × ℝ × ℝ)

/-- Near plane of a camera. -/
def Camera.near : Camera → ℝ
  | .ortho n _ _ _ _ => n
  | .persp _ n _ _ _ _ => n

/-- Far plane of a camera. -/
def Camera.far : Camera → ℝ
  | .ortho _ f _ _ _ => f
  | .persp _ _ f _ _ _ => f

/-- Camera position. -/
def Camera.translate : Camera → ℝ × ℝ × ℝ
  | .ortho _ _ t _ _ => t
  | .persp _ _ _ t _ _ => t

/-- Camera target position. -/
def Camera.lookAt : Camera → ℝ × ℝ × ℝ
  | .ortho _ _ _ l _ => l
  | .persp _ _ _ _ l _ => l

/-- Camera up direction. -/
def Camera.up : Camera → ℝ × ℝ × ℝ
  | .ortho _ _ _ _ u => u
  | .persp _ _ _ _ _ u => u

/-- interface UpdateData of the library index file; optional fields are
`Option`s, `none` meaning the field was omitted from the call. -/
structure UpdateData where
  pipelineId : ℕ
  objectId : ℕ
  translate : Option (ℝ × ℝ × ℝ)
  rotateAxis : Option (ℝ × ℝ × ℝ)
  rotateDeg : Option ℝ
  scale : Option (ℝ × ℝ × ℝ)
  visible : Option Bool
  camera : Option Camera
  uniformData : Option (List (Option (List ℝ)))

/-- UniformDescription, restricted to its one registry-observable field:
whether the uniform uses a dynamic offset. -/
structure UniformDescription where
  dynamic : Bool

/-- Model of `device.queue.writeBuffer(buffer, byteOffset, data)` for a
`Float32Array` payload: float `j` of `data` lands at byte address
`byteOffset + 4*j`; all other addresses keep their previous contents. -/
def writeFloats (buf : ℕ → ℝ) (byteOffset : ℕ) (data : List ℝ) : ℕ → ℝ :=
  fun addr =>
    if byteOffset ≤ addr ∧ addr < byteOffset + 4 * data.length ∧
        (addr - byteOffset) % 4 = 0
    then data.getD ((addr - byteOffset) / 4) 0
    else buf addr

/-- Flatten a matrix back to its 16-float Float32Array order. -/
def matToList (m : Mat) : List ℝ :=
  [m.e0, m.e1, m.e2, m.e3, m.e4, m.e5, m.e6, m.e7,
   m.e8, m.e9, m.e10, m.e11, m.e12, m.e13, m.e14, m.e15]

/-- Renderer.addBindGroup0 (part_006 lines 887-960), reduced to its
registry-observable effect: allocates the shared mvp uniform buffer of
byte size `minUniformBufferOffsetAlignment * maxObjCount` (GPU buffers
are zero-initialized); the sampler and placeholder textures carry no
state. -/
def addBindGroup0 (limits : Limits) (maxObjCount : ℕ) : BindGroup0 :=
  { size := limits.minUniformBufferOffsetAlignment * maxObjCount
    entry0 := fun _ => 0 }

/-- Renderer.addBindGroup1 (part_006 lines 962-996): one zero-initialized
buffer per uniform description plus the dynamic flags (the per-uniform
byte sizes are not observable by any claim). -/
def addBindGroup1 (uniforms : List UniformDescription) : BindGroup1 :=
  { entries := uniforms.map (fun _ _ => 0)
    dynRef := uniforms.map (fun u => u.dynamic) }

/-- Renderer.addPipeline (part_006 lines 769-886): shader-module
creation, bind-group layouts and the GPURenderPipeline are GPU-side and
carry no registry state; the registry effect is pushing a new
RenderPipeline with an empty objects list, the given maxObjCount, a fresh
bind group 0, the optional custom bind group 1 (created whenever the
uniforms option is present), and returning `this.pipelines.length - 1`. -/
def Renderer.addPipeline (r : Renderer) (maxObjCount : ℕ)
    (uniforms : Option (List UniformDescription)) : Renderer × ℕ :=
  let pipe : RenderPipeline :=
    { objects := []
      maxObjCount := maxObjCount
      bindGroup0 := addBindGroup0 r.limits maxObjCount
      bindGroup1 := uniforms.map addBindGroup1 }
  ({ r with pipelines := r.pipelines ++ [pipe] }, r.pipelines.length)

/-- Renderer.updateObject (part_006 lines 1185-1241), step for step:
pipeline and object lookup (throwing on unknown handles), the
`obj.visible = visible ?? true` assignment with early return when
invisible, the model matrix `translate * (scale * rotate)` from the
optional transform fields, the view matrix (identity without a camera),
the projection matrix (perspective for a "persp" camera, otherwise ortho
over the half canvas with the camera's — or default — near/far), the
48-float mvp payload written to the shared mvp buffer at byte offset
`minStorageBufferOffsetAlignment * obj.pipelineIndex` (note: the
*storage* alignment, unlike the sizing and binding sites which use the
*uniform* alignment), and the optional custom-uniform writes. -/
noncomputable def Renderer.updateObject (r : Renderer) (input : UpdateData) :
    Except RendererError Renderer := do
  let some dpipe := r.pipelines.get? input.pipelineId
    | throw (.pipelineNotFound input.pipelineId)
  let some obj := dpipe.objects.get? input.objectId
    | throw (.objectNotFound input.objectId)
  let vis := input.visible.getD true
  if vis = false then
    let hiddenObjs := dpipe.objects.set input.objectId { obj with visible := false }
    return { r with pipelines :=
        r.pipelines.set input.pipelineId { dpipe with objects := hiddenObjs } }
  -- model matrix
  let t := input.translate.getD (0, 0, 0)
  let modelt := Mat4.translate t.1 t.2.1 t.2.2
  let modelr := Mat4.rotate (input.rotateAxis.getD (0, 0, 1))
    ((input.rotateDeg.getD 0) * Real.pi / 180)
  let sc := input.scale.getD (1, 1, 1)
  let models := Mat4.scale sc.1 sc.2.1 sc.2.2
  let model := Mat4.multiply modelt (Mat4.multiply models modelr)
  -- view matrix
  let view := match input.camera with
    | none => Mat4.identity
    | some cam =>
      let viewt := Mat4.translate (-cam.translate.1) (-cam.translate.2.1)
        (-cam.translate.2.2)
      let viewr := Mat4.view_rot cam.translate cam.lookAt cam.up
      Mat4.multiply viewt viewr
  -- projection matrix
  let w2 := r.width / 2
  let h2 := r.height / 2
  let proj ← match input.camera with
    | some (.persp fovY near far _ _ _) => Mat4.perspective fovY (w2 / h2) near far
    | some (.ortho near far _ _ _) => Mat4.ortho (-w2) w2 h2 (-h2) near far
    | none => Mat4.ortho (-w2) w2 h2 (-h2) 0 2000
  -- join everything together and write at the slot offset
  let mvp := matToList model ++ matToList view ++ matToList proj
  let stride := r.limits.minStorageBufferOffsetAlignment
  let bg0 : BindGroup0 := { dpipe.bindGroup0 with
    entry0 := writeFloats dpipe.bindGroup0.entry0 (stride * obj.pipelineIndex) mvp }
  -- update custom uniforms
  let bg1 := match dpipe.bindGroup1, input.uniformData with
    | some bg1, some ud =>
      some { bg1 with entries := bg1.entries.mapIdx (fun i buf =>
        match ud.getD i none with
        | none => buf
        | some bufferData =>
          if bg1.dynRef.getD i false then
            writeFloats buf (stride * obj.pipelineIndex) bufferData
          else
            writeFloats buf 0 bufferData) }
    | other, _ => other
  let newObjs := dpipe.objects.set input.objectId { obj with visible := true }
  let newPipe : RenderPipeline :=
    { dpipe with objects := newObjs, bindGroup0 := bg0, bindGroup1 := bg1 }
  return { r with pipelines := r.pipelines.set input.pipelineId newPipe }

/-- Renderer.addObject (part_006 lines 1008-1093).  The GPU buffer
uploads have no registry-observable effect beyond the metadata recorded on
the object and are omitted (no claim reads them back); everything else
follows the source: the `verts.length < 3` check, the TypeError from
`pipe.objects` when the pipeline lookup yields `undefined`, the new id
`pipe.objects.length`, the object stored with `pipelineIndex = id`, the
trailing parameter-less `updateObject` call writing the initial transform,
and the returned id.  There is no capacity check against `maxObjCount`. -/
noncomputable def Renderer.addObject (r : Renderer) (pipelineId : ℕ)
    (verts : List (ℝ × ℝ × ℝ)) (uvs : Option (List (ℝ × ℝ)))
    (normals : Option (List (ℝ × ℝ × ℝ))) (indices : Option (List ℕ))
    (instances : Option ℕ) : Except RendererError (Renderer × ℕ) := do
  if verts.length < 3 then throw .notEnoughVertices
  let some pipe := r.pipelines.get? pipelineId
    | throw .typeErrorUndefined
  let id := pipe.objects.length
  let obj : RenderObject :=
    { visible := true
      vertexCount := verts.length
      pipelineIndex := id
      hasIndexBuffer := !(indices.getD []).isEmpty
      indexCount := indices.map List.length
      instances := match instances with
        | some n => if n = 0 then 1 else n
        | none => 1 }
  let newPipe : RenderPipeline := { pipe with objects := pipe.objects ++ [obj] }
  let r1 : Renderer := { r with pipelines := r.pipelines.set pipelineId newPipe }
  let r2 ← r1.updateObject
    { pipelineId := pipelineId, objectId := id, translate := none,
      rotateAxis := none, rotateDeg := none, scale := none, visible := none,
      camera := none, uniformData := none }
  return (r2, id)

/-- Renderer.addObjectAsBuffers (part_006 lines 1107-1171): the same
registry bookkeeping as addObject, taking raw buffers (again omitted as
contents are never read back; note the source performs no vertex-count
check here at all).  The index buffer exists iff `indices && indexCount`
are truthy and `indices.byteLength > 0`. -/
noncomputable def Renderer.addObjectAsBuffers (r : Renderer) (pipelineId : ℕ)
    (vertsByteLength : ℕ) (vertCount : ℕ) (indicesByteLength : Option ℕ)
    (indexCount : Option ℕ) (instances : Option ℕ) :
    Except RendererError (Renderer × ℕ) := do
  let some pipe := r.pipelines.get? pipelineId
    | throw .typeErrorUndefined
  let id := pipe.objects.length
  let obj : RenderObject :=
    { visible := true
      vertexCount := vertCount
      pipelineIndex := id
      hasIndexBuffer := match indicesByteLength, indexCount with
        | some bl, some ic => decide (ic ≠ 0) && decide (0 < bl)
        | _, _ => false
      indexCount := indexCount
      instances := match instances with
        | some n => if n = 0 then 1 else n
        | none => 1 }
  let newPipe : RenderPipeline := { pipe with objects := pipe.objects ++ [obj] }
  let r1 : Renderer := { r with pipelines := r.pipelines.set pipelineId newPipe }
  let r2 ← r1.updateObject
    { pipelineId := pipelineId, objectId := id, translate := none,
      rotateAxis := none, rotateDeg := none, scale := none, visible := none,
      camera := none, uniformData := none }
  return (r2, id)

/-- Where a render pass resolves to: the canvas surface or a cached
texture. -/
inductive RenderTarget where
  | screen
  | texture (id : ℕ)
  deriving DecidableEq

/-- One encoded draw: which pipeline and which element of its objects list
produced it (implicit in the source's forEach), the dynamic offset passed
for bind group 0, the dynamic offsets passed for bind group 1, and the
draw-call arguments. -/
structure DrawCall where
  pipelineId : ℕ
  objectIndex : ℕ
  bindGroup0Offset : ℕ
  bindGroup1Offsets : List ℕ
  indexed : Bool
  count : ℕ
  instances : ℕ
  deriving DecidableEq

/-- The observable outcome of one render pass. -/
structure RenderResult where
  target : RenderTarget
  draws : List DrawCall
  deriving DecidableEq

/-- Renderer.render (part_006 lines 1246-1312): picks the render target —
falling back to the screen with a console warning when the requested
texture id is unknown — then iterates the requested pipeline ids, skipping
unknown ids with a console warning, and within each pipeline iterates
objects in insertion order, skipping invisible ones, binding bind group 0
at dynamic offset `minUniformBufferOffsetAlignment * obj.pipelineIndex`
(and the same offset once per dynamic entry of bind group 1), then issuing
one indexed or plain draw.  Encoding reads but never mutates registry
state; there is no throw site apart from the initialization guard, so the
result is always `Except.ok`. -/
def Renderer.render (r : Renderer) (pipelineIds : List ℕ) (targetId : Option ℕ) :
    Except RendererError RenderResult :=
  let target : RenderTarget :=
    match targetId with
    | some tid => if tid < r.textures then .texture tid else .screen
    | none => .screen
  let draws := (pipelineIds.map (fun id =>
    match r.pipelines.get? id with
    | none => []
    | some pipeline =>
      pipeline.objects.enum.filterMap (fun p =>
        let obj := p.2
        if obj.visible = false then none
        else
          let stride := r.limits.minUniformBufferOffsetAlignment
          let bg1Offsets := match pipeline.bindGroup1 with
            | none => []
            | some bg1 => (bg1.dynRef.filter (fun dyn => dyn)).map
                (fun _ => stride * obj.pipelineIndex)
          let idxB : Bool := obj.hasIndexBuffer && decide (obj.indexCount.getD 0 ≠ 0)
          some { pipelineId := id
                 objectIndex := p.1
                 bindGroup0Offset := stride * obj.pipelineIndex
                 bindGroup1Offsets := bg1Offsets
                 indexed := idxB
                 count := if idxB then obj.indexCount.getD 0 else obj.vertexCount
                 instances := if obj.instances = 0 then 1 else obj.instances }))).flatten
  .ok { target := target, draws := draws }

/-- Per-pipeline summary used to state bookkeeping invariants: the
creation-time capacity and the list of the objects' stored uniform-slot
indices, in objects-list order. -/
def skeleton (r : Renderer) : List (ℕ × List ℕ) :=
  r.pipelines.map (fun p => (p.maxObjCount, p.objects.map (fun o => o.pipelineIndex)))

/-- A list of slot indices that equals its own positions: entry `i` is `i`. -/
def consecutive (idxs : List ℕ) : Prop :=
  ∀ i k, idxs.get? i = some k → k = i

/-- Invariant: in every pipeline, the object stored at position `i` of the
objects list carries uniform-slot index `i`. -/
def SlotInv (r : Renderer) : Prop :=
  ∀ pr ∈ skeleton r, consecutive pr.2

/-- Standard WebGPU default limits: both offset alignments are 256. -/
def limitsStd : Limits := ⟨256, 256⟩

/-- Device limits on which the two alignments differ (legal per the WebGPU
specification, which constrains the limits separately; e.g. a device may
report a storage alignment smaller than its uniform alignment). -/
def limitsSplit : Limits := ⟨256, 128⟩

/-- A fresh initialized renderer over a 512x512 canvas with no pipelines
and no textures, as produced by Renderer.init. -/
noncomputable def mkRenderer (limits : Limits) : Renderer :=
  { limits := limits, width := 512, height := 512, pipelines := [], textures := 0 }

/-- A minimal triangle used as object geometry in the scenarios. -/
noncomputable def tri : List (ℝ × ℝ × ℝ) := [(0, 0, 0), (1, 0, 0), (0, 1, 0)]

/-- The 48-float mvp payload updateObject writes for a camera-less call
with translation `(tx, ty, tz)`, default rotation axis, rotation angle 0,
and default scale: the model matrix, an identity view matrix, and the
default orthographic projection for the 512x512 canvas. -/
noncomputable def mvpDefault (tx ty tz : ℝ) : List ℝ :=
  matToList (Mat4.multiply (Mat4.translate tx ty tz)
      (Mat4.multiply (Mat4.scale 1 1 1) (Mat4.rotate (0, 0, 1) (0 * Real.pi / 180)))) ++
  matToList Mat4.identity ++
  matToList (Mat4.orthoM (-(512 / 2 : ℝ)) (512 / 2) (512 / 2) (-(512 / 2)) 0 2000)

/-- Read back float `j` of the 16-float model matrix stored in uniform
slot `slot` of pipeline `pid`: slots are
`minUniformBufferOffsetAlignment` bytes apart (the stride used to size the
shared buffer and to bind it at render time), and the model matrix is the
first 16 floats of a slot. -/
noncomputable def slotFloat (r : Renderer) (pid slot j : ℕ) : ℝ :=
  match r.pipelines.get? pid with
  | some p => p.bindGroup0.entry0 (r.limits.minUniformBufferOffsetAlignment * slot + 4 * j)
  | none => 0

/-- The 16 floats of the model matrix stored in a uniform slot. -/
noncomputable def slotModel (r : Renderer) (pid slot : ℕ) : List ℝ :=
  (List.range 16).map (fun j => slotFloat r pid slot j)

/-- C2 scenario start: a pipeline created with capacity 1 on standard limits. -/
noncomputable def c2start : Renderer := ((mkRenderer limitsStd).addPipeline 1 none).1

/-- C4 scenario: create a pipeline with maxObjCount 2, add two triangle
objects, then updateObject the first with translate [10,0,0] and the
second with translate [-10,0,0], both with rotateDeg 0. -/
noncomputable def c4final : Except RendererError Renderer := do
  let r0 := ((mkRenderer limitsStd).addPipeline 2 none).1
  let (r1, id0) ← r0.addObject 0 tri none none none none
  let (r2, id1) ← r1.addObject 0 tri none none none none
  let r3 ← r2.updateObject
    { pipelineId := 0, objectId := id0, translate := some (10, 0, 0),
      rotateAxis := none, rotateDeg := some 0, scale := none, visible := none,
      camera := none, uniformData := none }
  r3.updateObject
    { pipelineId := 0, objectId := id1, translate := some (-10, 0, 0),
      rotateAxis := none, rotateDeg := some 0, scale := none, visible := none,
      camera := none, uniformData := none }

/-- The state the C4 scenario reaches, written out: both objects visible
with slot indices 0 and 1, and the shared mvp buffer carrying the four
writes (two initial ones from addObject, then the two updates) at slot
offsets 0 and 256. -/
noncomputable def c4expected : Renderer :=
  { limits := limitsStd, width := 512, height := 512, textures := 0,
    pipelines := [{
      objects := [
        { visible := true, vertexCount := 3, pipelineIndex := 0,
          hasIndexBuffer := false, indexCount := none, instances := 1 },
        { visible := true, vertexCount := 3, pipelineIndex := 1,
          hasIndexBuffer := false, indexCount := none, instances := 1 }],
      maxObjCount := 2,
      bindGroup0 :=
        ⟨512,
         writeFloats (writeFloats (writeFloats (writeFloats
           (fun _ => 0) 0 (mvpDefault 0 0 0)) 256 (mvpDefault 0 0 0))
           0 (mvpDefault 10 0 0)) 256 (mvpDefault (-10) 0 0)⟩,
      bindGroup1 := none }] }

/-- C1 scenario: the same construction as C4 but on limits where the
storage and uniform alignments differ, updating only the second object. -/
noncomputable def c1final : Except RendererError Renderer := do
  let r0 := ((mkRenderer limitsSplit).addPipeline 2 none).1
  let (r1, _) ← r0.addObject 0 tri none none none none
  let (r2, id1) ← r1.addObject 0 tri none none none none
  r2.updateObject
    { pipelineId := 0, objectId := id1, translate := some (10, 0, 0),
      rotateAxis := none, rotateDeg := some 0, scale := none, visible := none,
      camera := none, uniformData := none }

/-- The state the C1 scenario reaches: the three mvp writes all use the
*storage* alignment stride 128, so the second object's data sits at byte
offset 128 although the buffer was sized and is bound with the uniform
alignment 256. -/
noncomputable def c1expected : Renderer :=
  { limits := limitsSplit, width := 512, height := 512, textures := 0,
    pipelines := [{
      objects := [
        { visible := true, vertexCount := 3, pipelineIndex := 0,
          hasIndexBuffer := false, indexCount := none, instances := 1 },
        { visible := true, vertexCount := 3, pipelineIndex := 1,
          hasIndexBuffer := false, indexCount := none, instances := 1 }],
      maxObjCount := 2,
      bindGroup0 :=
        ⟨512,
         writeFloats (writeFloats (writeFloats
           (fun _ => 0) 0 (mvpDefault 0 0 0)) 128 (mvpDefault 0 0 0))
           128 (mvpDefault 10 0 0)⟩,
      bindGroup1 := none }] }

/-- A one-object render object used by small witness states. -/
def objW : RenderObject :=
  { visible := true, vertexCount := 3, pipelineIndex := 0,
    hasIndexBuffer := false, indexCount := none, instances := 1 }

/-- A one-object pipeline used by small witness states. -/
noncomputable def pipeW : RenderPipeline :=
  { objects := [objW], maxObjCount := 1,
    bindGroup0 := { size := 256, entry0 := fun _ => 0 }, bindGroup1 := none }

/-- A renderer holding the one-object pipeline. -/
noncomputable def rW : Renderer :=
  { limits := limitsStd, width := 512, height := 512, pipelines := [pipeW],
    textures := 0 }

/-- A two-object pipeline with consecutive slot indices 0 and 1. -/
noncomputable def pipeV2 : RenderPipeline :=
  { objects := [objW, { objW with pipelineIndex := 1 }], maxObjCount := 2,
    bindGroup0 := ⟨512, fun _ => 0⟩, bindGroup1 := none }

/-- A renderer holding the two-object pipeline. -/
noncomputable def rV2 : Renderer :=
  { limits := limitsStd, width := 512, height := 512, pipelines := [pipeV2],
    textures := 0 }

/-- C7: the claim says every call to `ortho` or `perspective` with
`near = far` is rejected with an error before the division by
`near - far` is performed.  The code has no such check: at the concrete
degenerate input `near = far = 5` both functions perform the division and
return a matrix (`Except.ok`), and in fact they return `ok` on every
input.  (In JavaScript the degenerate division yields non-finite matrix
entries rather than an error.) -/
theorem ortho_perspective_never_rejected :
    (Mat4.ortho 0 2 2 0 5 5).isOk = true ∧
    (Mat4.perspective 60 1 5 5).isOk = true ∧
    (∀ l r t b n f : ℝ, (Mat4.ortho l r t b n f).isOk = true) ∧
    (∀ fov asp n f : ℝ, (Mat4.perspective fov asp n f).isOk = true) := by
  refine ⟨rfl, rfl, fun _ _ _ _ _ _ => rfl, fun _ _ _ _ => rfl⟩

/-- C3: the claim says every index value of every generated shape is
strictly less than the number of vertices.  `Primitives.cone 1 1 3`
returns 9 vertices (valid indices 0..8) but its index sequence contains
the value 9: the bottom-face loop `for (i = new0; i < vertices.length;
i++) index.push(i, i+1, new0-1)` pushes `i+1 = vertices.length` on its
last iteration. -/
theorem cone_index_out_of_range :
    (Primitives.cone 1 1 3).map (fun sh => (sh.vertices.length, sh.index)) =
      .ok (9, some [2, 1, 0, 3, 2, 0, 4, 3, 0,
                    6, 7, 5, 7, 8, 5, 8, 9, 5,
                    8, 6, 5]) ∧
    9 ∈ [2, 1, 0, 3, 2, 0, 4, 3, 0, 6, 7, 5, 7, 8, 5, 8, 9, 5, 8, 6, 5] ∧
    ¬ (9 < 9) := by
  refine ⟨?_, by decide, by decide⟩
  rfl

/-- Running total of `p + |x|` starting from a nonnegative accumulator
stays nonnegative (helper for the magnitude computed by Vec.normalize). -/
theorem foldl_abs_nonneg : ∀ (v : List ℚ) (a : ℚ), 0 ≤ a →
    0 ≤ v.foldl (fun p x => p + |x|) a := by
  intro v
  induction v with
  | nil => intro a ha; simpa using ha
  | cons x xs ih =>
    intro a ha
    simpa using ih (a + |x|) (by positivity)

/-- The magnitude fold is zero exactly when the accumulator is zero and
every component is zero. -/
theorem foldl_abs_eq_zero_iff : ∀ (v : List ℚ) (a : ℚ), 0 ≤ a →
    (v.foldl (fun p x => p + |x|) a = 0 ↔ a = 0 ∧ ∀ x ∈ v, x = 0) := by
  intro v
  induction v with
  | nil => intro a _; simp
  | cons x xs ih =>
    intro a ha
    have habs : (0 : ℚ) ≤ |x| := abs_nonneg x
    have h1 : (xs.foldl (fun p x => p + |x|) (a + |x|) = 0 ↔
        a + |x| = 0 ∧ ∀ y ∈ xs, y = 0) := ih (a + |x|) (by positivity)
    have h2 : a + |x| = 0 ↔ a = 0 ∧ x = 0 := by
      constructor
      · intro h
        have hx : |x| = 0 := by linarith [abs_nonneg x, h, ha]
        exact ⟨by linarith [abs_nonneg x], abs_eq_zero.mp hx⟩
      · rintro ⟨h, h'⟩
        simp [h, h']
    simp only [List.foldl_cons, h1, h2, List.mem_cons]
    constructor
    · rintro ⟨⟨ha0, hx0⟩, hxs⟩
      exact ⟨ha0, fun y hy => hy.elim (fun h => h ▸ hx0) (hxs y)⟩
    · rintro ⟨ha0, hall⟩
      exact ⟨⟨ha0, hall x (Or.inl rfl)⟩, fun y hy => hall y (Or.inr hy)⟩

/-- C10: `Vec.normalize` divides every component by the sum of the
absolute values of the components (the L1 norm), not by the Euclidean
norm: `normalize [1,1] = [0.5, 0.5]`, whose squared Euclidean length
`0.25 + 0.25` is less than 1; and it fails (throws) exactly when that sum
of absolute values is zero, which happens exactly for the zero vector. -/
theorem normalize_divides_by_L1 :
    (∀ v w : List ℚ, Vec.normalize v = .ok w →
        w = v.map (fun x => x / v.foldl (fun p y => p + |y|) 0)) ∧
    Vec.normalize [1, 1] = .ok [1/2, 1/2] ∧
    ((1/2 : ℚ) * (1/2) + (1/2) * (1/2) < 1) ∧
    (∀ v : List ℚ, Vec.normalize v = .error .zeroMagnitude ↔
        v.foldl (fun p y => p + |y|) 0 = 0) ∧
    (∀ v : List ℚ, v.foldl (fun p y => p + |y|) 0 = 0 ↔ ∀ x ∈ v, x = 0) := by
  have hnn : ∀ v : List ℚ, 0 ≤ v.foldl (fun p y => p + |y|) 0 :=
    fun v => foldl_abs_nonneg v 0 le_rfl
  have hzero : ∀ v : List ℚ,
      v.foldl (fun p y => p + |y|) 0 = 0 ↔ ∀ x ∈ v, x = 0 := by
    intro v
    rw [foldl_abs_eq_zero_iff v 0 le_rfl]
    simp
  refine ⟨?_, by norm_num [Vec.normalize, List.foldl_cons, List.foldl_nil], by norm_num, ?_, hzero⟩
  · intro v w h
    unfold Vec.normalize at h
    by_cases hm : v.foldl (fun p y => p + |y|) 0 ≤ 0
    · simp [hm] at h
    · simp [hm] at h
      exact h.symm
  · intro v
    unfold Vec.normalize
    by_cases hm : v.foldl (fun p y => p + |y|) 0 ≤ 0
    · simp [hm]
      linarith [hnn v]
    · simp [hm]
      intro h
      exact hm (le_of_eq h)

/-- Witness for C10: the general L1 statement applied to the concrete
vector `[1, 1]`. -/
theorem normalize_divides_by_L1_witness :
    [(1 : ℚ)/2, 1/2] =
      [(1 : ℚ), 1].map (fun x => x / ([(1 : ℚ), 1].foldl (fun p y => p + |y|) 0)) :=
  normalize_divides_by_L1.1 [1, 1] [1/2, 1/2]
    (by norm_num [Vec.normalize, List.foldl_cons, List.foldl_nil])

/-- C8: for every non-zero axis and every angle `d`, the matrix
`rotate(axis, d)` multiplied by the matrix `rotate(axis, -d)` is the
identity matrix — exactly, over the exact-arithmetic embedding of
`Mat4.rotate` and `Mat4.multiply`. -/
theorem rotate_comp_rotate_neg_eq_identity (axis : ℝ × ℝ × ℝ) (d : ℝ)
    (h : axis ≠ (0, 0, 0)) :
    Mat4.multiply (Mat4.rotate axis d) (Mat4.rotate axis (-d)) = Mat4.identity := by
  obtain ⟨ax, ay, az⟩ := axis
  have hne : ¬(ax = 0 ∧ ay = 0 ∧ az = 0) := by
    rintro ⟨h1, h2, h3⟩
    exact h (by simp [h1, h2, h3])
  have hsum : 0 < ax * ax + ay * ay + az * az := by
    rcases not_and_or.mp hne with h1 | h23
    · nlinarith [mul_self_nonneg ay, mul_self_nonneg az, mul_self_pos.mpr h1]
    · rcases not_and_or.mp h23 with h2 | h3
      · nlinarith [mul_self_nonneg ax, mul_self_nonneg az, mul_self_pos.mpr h2]
      · nlinarith [mul_self_nonneg ax, mul_self_nonneg ay, mul_self_pos.mpr h3]
  have hn2 : Real.sqrt (ax * ax + ay * ay + az * az) *
      Real.sqrt (ax * ax + ay * ay + az * az) = ax * ax + ay * ay + az * az :=
    Real.mul_self_sqrt hsum.le
  have hnpos : 0 < Real.sqrt (ax * ax + ay * ay + az * az) := Real.sqrt_pos.mpr hsum
  simp only [Mat4.multiply, Mat4.rotate, Mat4.identity, Real.cos_neg, Real.sin_neg]
  set n := Real.sqrt (ax * ax + ay * ay + az * az) with hndef
  have hne' : n ≠ 0 := ne_of_gt hnpos
  set u := ax / n with hudef
  set v := ay / n with hvdef
  set w := az / n with hwdef
  set c := Real.cos d with hcdef
  set s := Real.sin d with hsdef
  have hu : u * u + v * v + w * w = 1 := by
    rw [hudef, hvdef, hwdef]
    field_simp
    linear_combination -hn2
  have hc : c * c + s * s = 1 := by
    rw [hcdef, hsdef]
    linear_combination Real.sin_sq_add_cos_sq d
  rw [Mat.mk.injEq]
  refine ⟨?_, ?_, ?_, ?_, ?_, ?_, ?_, ?_, ?_, ?_, ?_, ?_, ?_, ?_, ?_, ?_⟩
  · linear_combination (u * u * (1 - c) * (1 - c) + s * s) * hu + (1 - u * u) * hc
  · linear_combination (u * v * (1 - c) * (1 - c)) * hu - u * v * hc
  · linear_combination (u * w * (1 - c) * (1 - c)) * hu - u * w * hc
  · ring
  · linear_combination (u * v * (1 - c) * (1 - c)) * hu - u * v * hc
  · linear_combination (v * v * (1 - c) * (1 - c) + s * s) * hu + (1 - v * v) * hc
  · linear_combination (v * w * (1 - c) * (1 - c)) * hu - v * w * hc
  · ring
  · linear_combination (u * w * (1 - c) * (1 - c)) * hu - u * w * hc
  · linear_combination (v * w * (1 - c) * (1 - c)) * hu - v * w * hc
  · linear_combination (w * w * (1 - c) * (1 - c) + s * s) * hu + (1 - w * w) * hc
  · ring
  · ring
  · ring
  · ring
  · ring

/-- Witness for C8: the rotation-inverse identity at the concrete axis
`(0, 0, 1)` and angle `1`. -/
theorem rotate_comp_rotate_neg_eq_identity_witness :
    (((0 : ℝ), (0 : ℝ), (1 : ℝ)) ≠ ((0 : ℝ), (0 : ℝ), (0 : ℝ))) ∧
    Mat4.multiply (Mat4.rotate (0, 0, 1) 1) (Mat4.rotate (0, 0, 1) (-1)) =
      Mat4.identity :=
  ⟨by norm_num [Prod.ext_iff],
   rotate_comp_rotate_neg_eq_identity (0, 0, 1) 1 (by norm_num [Prod.ext_iff])⟩

/-- Setting a list position to the element it already holds is the
identity. -/
theorem set_of_get?_eq {α : Type} (l : List α) (n : ℕ) (a : α)
    (h : l.get? n = some a) : l.set n a = l := by
  induction l generalizing n with
  | nil => simp at h
  | cons x xs ih =>
    cases n with
    | zero =>
      simp only [List.get?] at h
      cases h
      rfl
    | succ m =>
      simp only [List.get?] at h
      simp [List.set, ih m h]

/-- Writing a `Float32Array` and reading float `j` back from inside the
written range yields element `j` of the payload. -/
theorem writeFloats_hit (buf : ℕ → ℝ) (off : ℕ) (data : List ℝ) (j : ℕ)
    (h : j < data.length) :
    writeFloats buf off data (off + 4 * j) = data.getD j 0 := by
  unfold writeFloats
  rw [if_pos]
  · have h4 : off + 4 * j - off = 4 * j := by omega
    rw [h4, Nat.mul_div_cancel_left j (by norm_num : 0 < 4)]
  · exact ⟨by omega, by omega, by omega⟩

/-- Reading below a write's byte offset sees through to the underlying
buffer. -/
theorem writeFloats_miss_lt (buf : ℕ → ℝ) (off : ℕ) (data : List ℝ) (addr : ℕ)
    (h : addr < off) :
    writeFloats buf off data addr = buf addr := by
  unfold writeFloats
  rw [if_neg]
  rintro ⟨h1, _, _⟩
  omega

/-- The camera-less mvp payload always holds 48 floats. -/
theorem mvpDefault_length (tx ty tz : ℝ) : (mvpDefault tx ty tz).length = 48 := by
  simp [mvpDefault, matToList]

/-- Replacing one object of one pipeline by a version differing only in
its `visible` flag (and replacing the pipeline's bind groups) does not
change the bookkeeping skeleton. -/
theorem skeleton_set_same (r : Renderer) (pid oid : ℕ)
    (dpipe : RenderPipeline) (obj : RenderObject) (b : Bool)
    (bg0 : BindGroup0) (bg1 : Option BindGroup1)
    (hp : r.pipelines.get? pid = some dpipe)
    (ho : dpipe.objects.get? oid = some obj) :
    skeleton { r with pipelines := r.pipelines.set pid (
      { dpipe with objects := dpipe.objects.set oid { obj with visible := b },
                   bindGroup0 := bg0, bindGroup1 := bg1 }) } = skeleton r := by
  unfold skeleton
  rw [List.map_set]
  have hobjs : (dpipe.objects.set oid { obj with visible := b }).map
      (fun o => o.pipelineIndex) = dpipe.objects.map (fun o => o.pipelineIndex) := by
    rw [List.map_set]
    exact set_of_get?_eq _ _ _ (by rw [List.get?_map, ho]; rfl)
  show (r.pipelines.map _).set pid _ = r.pipelines.map _
  refine set_of_get?_eq _ _ _ ?_ |>.symm ▸ ?_
  all_goals try rw [List.get?_map, hp]
  · simp [hobjs]
  · simp [hobjs]

/-- Skeleton equality transports the slot-index invariant. -/
theorem slotInv_of_skeleton_eq (r r' : Renderer)
    (h : skeleton r' = skeleton r) (hr : SlotInv r) : SlotInv r' := by
  intro pr hpr
  exact hr pr (h ▸ hpr)


/-- Renderer.updateObject never changes the bookkeeping skeleton (object
counts, capacities, stored slot indices) nor the device limits; it only
touches one visibility flag and buffer contents. -/
theorem updateObject_shape (r : Renderer) (input : UpdateData) (r' : Renderer)
    (h : r.updateObject input = .ok r') :
    skeleton r' = skeleton r ∧ r'.limits = r.limits := by
  cases hp : r.pipelines[input.pipelineId]? with
  | none => simp [Renderer.updateObject, List.get?_eq_getElem?, hp] at h
  | some dpipe =>
    cases ho : dpipe.objects[input.objectId]? with
    | none => simp [Renderer.updateObject, List.get?_eq_getElem?, hp, ho] at h
    | some obj =>
      have hp' : r.pipelines.get? input.pipelineId = some dpipe := by
        rw [List.get?_eq_getElem?, hp]
      have ho' : dpipe.objects.get? input.objectId = some obj := by
        rw [List.get?_eq_getElem?, ho]
      rcases hc : input.camera with _ | cam
      · simp only [Renderer.updateObject, List.get?_eq_getElem?, hp, ho, hc,
          Mat4.ortho, bind, Except.bind, pure, Except.pure] at h
        split at h
        all_goals
          simp only [Except.ok.injEq] at h
          rw [← h]
          exact ⟨skeleton_set_same r _ _ dpipe obj _ _ _ hp' ho', rfl⟩
      · cases cam
        all_goals
          simp only [Renderer.updateObject, List.get?_eq_getElem?, hp, ho, hc,
            Mat4.ortho, Mat4.perspective, bind, Except.bind, pure,
            Except.pure] at h
          split at h
          all_goals
            simp only [Except.ok.injEq] at h
            rw [← h]
            exact ⟨skeleton_set_same r _ _ dpipe obj _ _ _ hp' ho', rfl⟩


/-- Elimination principle for a successful Renderer.addObject call: the
pipeline existed, the returned id is the pre-call objects count, and the
skeleton gains exactly one slot index — equal to that id — at the end of
that pipeline's list. -/
theorem addObject_ok_elim (r : Renderer) (pid : ℕ) (verts : List (ℝ × ℝ × ℝ))
    (uvs : Option (List (ℝ × ℝ))) (normals : Option (List (ℝ × ℝ × ℝ)))
    (indices : Option (List ℕ)) (inst : Option ℕ) (r' : Renderer) (id : ℕ)
    (h : r.addObject pid verts uvs normals indices inst = .ok (r', id)) :
    ∃ pipe, r.pipelines.get? pid = some pipe ∧ id = pipe.objects.length ∧
      skeleton r' = (skeleton r).set pid
        (pipe.maxObjCount, (pipe.objects.map (fun o => o.pipelineIndex)) ++ [id]) ∧
      r'.limits = r.limits := by
  by_cases hlen : verts.length < 3
  · simp [Renderer.addObject, hlen, throw, throwThe, MonadExceptOf.throw,
      bind, Except.bind] at h
  · cases hp : r.pipelines[pid]? with
    | none =>
      simp [Renderer.addObject, List.get?_eq_getElem?, hlen, hp, throw,
        throwThe, MonadExceptOf.throw, bind, Except.bind, pure, Except.pure] at h
    | some pipe =>
      have hp' : r.pipelines.get? pid = some pipe := by
        rw [List.get?_eq_getElem?, hp]
      simp only [Renderer.addObject, List.get?_eq_getElem?, hlen, if_false, hp,
        bind, Except.bind, pure, Except.pure, Functor.map, Except.map] at h
      split at h
      · exact absurd h (by simp)
      next r2 hu =>
        simp only [Except.ok.injEq, Prod.mk.injEq] at h
        obtain ⟨hr2, hid⟩ := h
        obtain ⟨hsk, hlim⟩ := updateObject_shape _ _ _ hu
        refine ⟨pipe, hp', hid.symm, ?_, by rw [← hr2, hlim]⟩
        rw [← hr2, hsk, ← hid]
        unfold skeleton
        rw [List.map_set]
        simp [List.map_append]


/-- Elimination principle for a successful Renderer.addObjectAsBuffers
call, identical in bookkeeping to addObject (there is no vertex-count
check here). -/
theorem addObjectAsBuffers_ok_elim (r : Renderer) (pid : ℕ)
    (vertsByteLength vertCount : ℕ) (indicesByteLength indexCount : Option ℕ)
    (inst : Option ℕ) (r' : Renderer) (id : ℕ)
    (h : r.addObjectAsBuffers pid vertsByteLength vertCount indicesByteLength
      indexCount inst = .ok (r', id)) :
    ∃ pipe, r.pipelines.get? pid = some pipe ∧ id = pipe.objects.length ∧
      skeleton r' = (skeleton r).set pid
        (pipe.maxObjCount, (pipe.objects.map (fun o => o.pipelineIndex)) ++ [id]) ∧
      r'.limits = r.limits := by
  cases hp : r.pipelines[pid]? with
  | none =>
    simp [Renderer.addObjectAsBuffers, List.get?_eq_getElem?, hp, throw,
      throwThe, MonadExceptOf.throw, bind, Except.bind, pure, Except.pure] at h
  | some pipe =>
    have hp' : r.pipelines.get? pid = some pipe := by
      rw [List.get?_eq_getElem?, hp]
    simp only [Renderer.addObjectAsBuffers, List.get?_eq_getElem?, hp,
      bind, Except.bind, pure, Except.pure, Functor.map, Except.map] at h
    split at h
    · exact absurd h (by simp)
    next r2 hu =>
      simp only [Except.ok.injEq, Prod.mk.injEq] at h
      obtain ⟨hr2, hid⟩ := h
      obtain ⟨hsk, hlim⟩ := updateObject_shape _ _ _ hu
      refine ⟨pipe, hp', hid.symm, ?_, by rw [← hr2, hlim]⟩
      rw [← hr2, hsk, ← hid]
      unfold skeleton
      rw [List.map_set]
      simp [List.map_append]

/-- Appending the next consecutive index keeps a slot-index list
consecutive. -/
theorem consecutive_append (idxs : List ℕ) (h : consecutive idxs) :
    consecutive (idxs ++ [idxs.length]) := by
  intro i k hik
  by_cases hi : i < idxs.length
  · exact h i k (by rwa [List.get?_append hi] at hik)
  · rw [List.get?_append_right (by omega)] at hik
    rcases Nat.lt_or_ge (i - idxs.length) 1 with h1 | h1
    · have : i - idxs.length = 0 := by omega
      rw [this] at hik
      simp at hik
      omega
    · rw [List.get?_eq_none.mpr (by simp; omega)] at hik
      exact absurd hik (by simp)

/-- A skeleton update that appends the next consecutive slot index to one
pipeline preserves the invariant. -/
theorem slotInv_set_append (r r' : Renderer) (pid : ℕ) (pipe : RenderPipeline)
    (hp : r.pipelines.get? pid = some pipe)
    (hsk : skeleton r' = (skeleton r).set pid
      (pipe.maxObjCount, (pipe.objects.map (fun o => o.pipelineIndex)) ++
        [pipe.objects.length]))
    (hr : SlotInv r) : SlotInv r' := by
  intro pr hpr
  rw [hsk] at hpr
  rcases List.mem_or_eq_of_mem_set hpr with hmem | heq
  · exact hr pr hmem
  · subst heq
    have hmem : (pipe.maxObjCount, pipe.objects.map (fun o => o.pipelineIndex)) ∈
        skeleton r := by
      refine List.get?_mem (n := pid) ?_
      unfold skeleton
      rw [List.get?_map, hp]
      rfl
    have hcons := hr _ hmem
    have := consecutive_append _ hcons
    simpa [List.length_map] using this


/-- The two-object witness renderer satisfies the slot-index invariant. -/
theorem slotInv_rV2 : SlotInv rV2 := by
  intro pr hpr
  simp only [rV2, pipeV2, skeleton, objW, List.map_cons, List.map_nil,
    List.mem_cons, List.not_mem_nil, or_false] at hpr
  subst hpr
  intro i k hik
  match i, hik with
  | 0, h => simp at h; omega
  | 1, h => simp at h; omega
  | (n + 2), h => simp at h

/-- C9: the id returned by addObject (and addObjectAsBuffers) is the new
object's position in its pipeline's objects list, the same number is
stored as the object's uniform-slot index (the skeleton gains exactly
`[id]` at the end of that pipeline's index list), every registry
operation preserves the invariant that stored slot indices are the
consecutive positions 0, 1, 2, ..., and consequently two distinct objects
of one pipeline never share a uniform-slot byte offset (for a non-zero
alignment stride). -/
theorem registry_slot_ids_consecutive :
    (∀ r maxC uni, SlotInv r → SlotInv ((Renderer.addPipeline r maxC uni).1)) ∧
    (∀ r pid verts uvs normals indices inst r' id,
        Renderer.addObject r pid verts uvs normals indices inst = .ok (r', id) →
        ∃ pipe, r.pipelines.get? pid = some pipe ∧ id = pipe.objects.length ∧
          skeleton r' = (skeleton r).set pid
            (pipe.maxObjCount, (pipe.objects.map (fun o => o.pipelineIndex)) ++ [id]) ∧
          (SlotInv r → SlotInv r')) ∧
    (∀ r pid vbl vc ibl ic inst r' id,
        Renderer.addObjectAsBuffers r pid vbl vc ibl ic inst = .ok (r', id) →
        ∃ pipe, r.pipelines.get? pid = some pipe ∧ id = pipe.objects.length ∧
          (SlotInv r → SlotInv r')) ∧
    (∀ r input r', Renderer.updateObject r input = .ok r' →
        (SlotInv r → SlotInv r')) ∧
    (∀ r pid p i j oi oj, SlotInv r → r.pipelines.get? pid = some p →
        p.objects.get? i = some oi → p.objects.get? j = some oj → i ≠ j →
        0 < r.limits.minUniformBufferOffsetAlignment →
        r.limits.minUniformBufferOffsetAlignment * oi.pipelineIndex ≠
          r.limits.minUniformBufferOffsetAlignment * oj.pipelineIndex) := by
  refine ⟨?_, ?_, ?_, ?_, ?_⟩
  · intro r maxC uni hr pr hpr
    simp only [Renderer.addPipeline, skeleton, List.map_append, List.map_cons,
      List.map_nil] at hpr
    rcases List.mem_append.mp hpr with hmem | hnew
    · exact hr pr hmem
    · simp only [List.mem_cons, List.not_mem_nil, or_false] at hnew
      subst hnew
      intro i k hik
      simp at hik
  · intro r pid verts uvs normals indices inst r' id h
    obtain ⟨pipe, hp, hid, hsk, _⟩ := addObject_ok_elim r pid verts uvs normals
      indices inst r' id h
    exact ⟨pipe, hp, hid, hsk, fun hr =>
      slotInv_set_append r r' pid pipe hp (by rwa [hid] at hsk) hr⟩
  · intro r pid vbl vc ibl ic inst r' id h
    obtain ⟨pipe, hp, hid, hsk, _⟩ := addObjectAsBuffers_ok_elim r pid vbl vc
      ibl ic inst r' id h
    exact ⟨pipe, hp, hid, fun hr =>
      slotInv_set_append r r' pid pipe hp (by rwa [hid] at hsk) hr⟩
  · intro r input r' h hr
    exact slotInv_of_skeleton_eq r r' (updateObject_shape r input r' h).1 hr
  · intro r pid p i j oi oj hr hp hoi hoj hij hpos
    have hpmem : (p.maxObjCount, p.objects.map (fun o => o.pipelineIndex)) ∈
        skeleton r := by
      refine List.get?_mem (n := pid) ?_
      unfold skeleton
      rw [List.get?_map, hp]
      rfl
    have hcons := hr _ hpmem
    have hi : oi.pipelineIndex = i :=
      hcons i oi.pipelineIndex (by rw [List.get?_map, hoi]; rfl)
    have hj : oj.pipelineIndex = j :=
      hcons j oj.pipelineIndex (by rw [List.get?_map, hoj]; rfl)
    rw [hi, hj]
    intro hcontra
    exact hij (Nat.eq_of_mul_eq_mul_left hpos hcontra)

/-- Witness for C9: the invariant parts applied to concrete states — a
pipeline freshly added to an empty renderer, and distinct offsets of the
two objects of the concrete two-object renderer. -/
theorem registry_slot_ids_consecutive_witness :
    SlotInv ((Renderer.addPipeline (mkRenderer limitsStd) 2 none).1) ∧
    rV2.limits.minUniformBufferOffsetAlignment * objW.pipelineIndex ≠
      rV2.limits.minUniformBufferOffsetAlignment *
        (RenderObject.pipelineIndex { objW with pipelineIndex := 1 }) := by
  constructor
  · exact registry_slot_ids_consecutive.1 (mkRenderer limitsStd) 2 none
      (fun pr hpr => absurd hpr (by simp [skeleton, mkRenderer]))
  · exact registry_slot_ids_consecutive.2.2.2.2 rV2 0 pipeV2 0 1 objW
      { objW with pipelineIndex := 1 } slotInv_rV2 rfl rfl rfl
      (by norm_num) (by norm_num [rV2, limitsStd])


/-- C5: an updateObject call carrying visible=false on an existing object
only sets that object's visibility flag: the resulting state differs from
the old one in exactly that flag (in particular the pipeline's bind
groups, and hence the object's uniform-slot contents, are untouched and
no matrix write occurs), and a subsequent render issues no draw call for
that object. -/
theorem updateObject_invisible_only_sets_flag (r : Renderer)
    (input : UpdateData) (dpipe : RenderPipeline) (obj : RenderObject)
    (hp : r.pipelines.get? input.pipelineId = some dpipe)
    (ho : dpipe.objects.get? input.objectId = some obj)
    (hv : input.visible = some false) :
    ∃ r', r.updateObject input = .ok r' ∧
      r' = { r with pipelines := r.pipelines.set input.pipelineId (
        { dpipe with objects :=
            dpipe.objects.set input.objectId { obj with visible := false } }) } ∧
      ∀ pids tid res, r'.render pids tid = .ok res →
        ∀ d ∈ res.draws,
          ¬(d.pipelineId = input.pipelineId ∧ d.objectIndex = input.objectId) := by
  have hp2 : r.pipelines[input.pipelineId]? = some dpipe := by
    rw [← List.get?_eq_getElem?]; exact hp
  have ho2 : dpipe.objects[input.objectId]? = some obj := by
    rw [← List.get?_eq_getElem?]; exact ho
  have hplt : input.pipelineId < r.pipelines.length := by
    rw [List.get?_eq_some] at hp; exact hp.1
  have holt : input.objectId < dpipe.objects.length := by
    rw [List.get?_eq_some] at ho; exact ho.1
  refine ⟨_, ?_, rfl, ?_⟩
  · simp [Renderer.updateObject, List.get?_eq_getElem?, hp2, ho2, hv, pure,
      Except.pure]
  · intro pids tid res hres d hd hbad
    obtain ⟨hdp, hdo⟩ := hbad
    simp only [Renderer.render, Except.ok.injEq] at hres
    rw [← hres] at hd
    simp only [List.mem_flatten, List.mem_map] at hd
    obtain ⟨sub, ⟨pid', hpid', hsub⟩, hdsub⟩ := hd
    rw [← hsub] at hdsub
    cases hpl : (({ r with pipelines := r.pipelines.set input.pipelineId (
        { dpipe with objects :=
            dpipe.objects.set input.objectId { obj with visible := false } }) } : Renderer).pipelines.get? pid') with
    | none => rw [hpl] at hdsub; simp at hdsub
    | some pl =>
      rw [hpl] at hdsub
      simp only [List.mem_filterMap] at hdsub
      obtain ⟨p, hmem, hfp⟩ := hdsub
      split at hfp
      · exact absurd hfp (by simp)
      next hvis =>
        simp only [Option.some.injEq] at hfp
        have hdp' : d.pipelineId = pid' := by rw [← hfp]
        have hdo' : d.objectIndex = p.1 := by rw [← hfp]
        rw [hdp'] at hdp
        subst hdp
        have hpl' : pl = { dpipe with objects := dpipe.objects.set input.objectId { obj with visible := false } } := by
          rw [List.get?_set_eq_of_lt _ hplt] at hpl
          exact (Option.some.injEq _ _ ▸ hpl).symm
        rw [hdo'] at hdo
        have hpo : pl.objects[p.1]? = some p.2 :=
          List.mem_enum_iff_getElem?.mp hmem
        rw [hpl', hdo] at hpo
        have : (dpipe.objects.set input.objectId
            { obj with visible := false })[input.objectId]? =
            some { obj with visible := false } := by
          rw [List.getElem?_set_eq_of_lt _ holt]
        rw [this] at hpo
        have hpv : p.2.visible = false := by
          rw [Option.some.injEq] at hpo
          rw [← hpo]
        exact hvis hpv


/-- Witness for C5: hiding the single object of the concrete one-object
renderer. -/
theorem updateObject_invisible_only_sets_flag_witness :
    ∃ r', Renderer.updateObject rW
        { pipelineId := 0, objectId := 0, translate := none, rotateAxis := none,
          rotateDeg := none, scale := none, visible := some false,
          camera := none, uniformData := none } = .ok r' ∧
      r' = { rW with pipelines := rW.pipelines.set 0 (
        { pipeW with objects :=
            pipeW.objects.set 0 { objW with visible := false } }) } ∧
      ∀ pids tid res, r'.render pids tid = .ok res →
        ∀ d ∈ res.draws, ¬(d.pipelineId = 0 ∧ d.objectIndex = 0) :=
  updateObject_invisible_only_sets_flag rW
    { pipelineId := 0, objectId := 0, translate := none, rotateAxis := none,
      rotateDeg := none, scale := none, visible := some false,
      camera := none, uniformData := none } pipeW objW rfl rfl rfl

/-- C6 counterexample: the claim says every registry operation given an
unknown handle — including render with an unknown pipeline id or target
texture id — fails with a NotFound error.  Render called on a state whose
only pipeline is id 0 and with no textures, passing unknown pipeline id 5
and unknown texture id 7, does not fail: it returns normally, rendering
to the screen with no draws. -/
theorem render_unknown_ids_do_not_throw :
    rW.render [5] (some 7) = .ok { target := .screen, draws := [] } := by
  rfl

/-- C6 amended: updateObject fails synchronously with a not-found error
for an unknown pipeline or object handle, but render never fails: it
skips unknown pipeline ids (producing no draws for them, with a console
warning) and falls back to rendering to the screen when the target
texture id is unknown. -/
theorem lookup_failure_behavior :
    (∀ r input, r.pipelines.get? input.pipelineId = none →
        Renderer.updateObject r input =
          .error (.pipelineNotFound input.pipelineId)) ∧
    (∀ r input dpipe, r.pipelines.get? input.pipelineId = some dpipe →
        dpipe.objects.get? input.objectId = none →
        Renderer.updateObject r input =
          .error (.objectNotFound input.objectId)) ∧
    (∀ (r : Renderer) pids tid, (r.render pids tid).isOk = true) ∧
    (∀ (r : Renderer) pids t, r.textures ≤ t →
        ∃ res, r.render pids (some t) = .ok res ∧ res.target = .screen) ∧
    (∀ (r : Renderer) id tid res, r.pipelines.get? id = none →
        r.render [id] tid = .ok res → res.draws = []) := by
  refine ⟨?_, ?_, ?_, ?_, ?_⟩
  · intro r input h
    have h2 : r.pipelines[input.pipelineId]? = none := by
      rw [← List.get?_eq_getElem?]; exact h
    simp [Renderer.updateObject, List.get?_eq_getElem?, h2, throw, throwThe,
      MonadExceptOf.throw]
  · intro r input dpipe hp ho
    have hp2 : r.pipelines[input.pipelineId]? = some dpipe := by
      rw [← List.get?_eq_getElem?]; exact hp
    have ho2 : dpipe.objects[input.objectId]? = none := by
      rw [← List.get?_eq_getElem?]; exact ho
    simp [Renderer.updateObject, List.get?_eq_getElem?, hp2, ho2, throw,
      throwThe, MonadExceptOf.throw]
  · intro r pids tid
    rfl
  · intro r pids t ht
    refine ⟨_, rfl, ?_⟩
    simp only [Renderer.render]
    rw [if_neg (by omega)]
  · intro r id tid res h hres
    simp only [Renderer.render, Except.ok.injEq] at hres
    rw [← hres]
    simp only [List.map_cons, List.map_nil, List.flatten_cons, List.flatten_nil,
      List.append_nil, h]

/-- Witness for C6 amended: the not-found error paths and the render
fallback paths at concrete states. -/
theorem lookup_failure_behavior_witness :
    Renderer.updateObject (mkRenderer limitsStd)
        { pipelineId := 0, objectId := 0, translate := none, rotateAxis := none,
          rotateDeg := none, scale := none, visible := none, camera := none,
          uniformData := none } = .error (.pipelineNotFound 0) ∧
    (∃ res, rW.render [9] (some 7) = .ok res ∧ res.target = .screen) ∧
    (RenderResult.mk .screen []).draws = [] := by
  refine ⟨?_, ?_, ?_⟩
  · exact lookup_failure_behavior.1 (mkRenderer limitsStd) _ rfl
  · exact lookup_failure_behavior.2.2.2.1 rW [9] 7 (by norm_num [rW])
  · exact lookup_failure_behavior.2.2.2.2 rW 5 none ⟨.screen, []⟩ rfl rfl


/-- C2: the claim says the (maxObjectCount+1)-th addObject on a pipeline
fails with a CapacityExceeded error.  The code has no capacity check: on
a pipeline created with maxObjCount = 1, both a first and a second
addObject succeed (returning ids 0 and 1), leaving 2 objects in the
pipeline — more than the declared capacity. -/
theorem addObject_has_no_capacity_check :
    ((c2start.addObject 0 tri none none none none).bind (fun x =>
      (x.1.addObject 0 tri none none none none).map (fun y =>
        (x.2, y.2, y.1.pipelines.map (fun p => (p.objects.length, p.maxObjCount))))))
    = .ok (0, 1, [(2, 1)]) := by
  rfl

/-- C4: in the two-object scenario the shared uniform buffer's two slots
hold distinct model matrices, and the translation components (floats 12,
13, 14 of each slot's model matrix) equal the respective translate
inputs [10,0,0] and [-10,0,0] exactly; the subsequent render encodes one
draw per object at dynamic offsets 0 and 256. -/
theorem scenario_slots_hold_distinct_translations :
    ∃ rf : Renderer, c4final = .ok rf ∧
      slotFloat rf 0 0 12 = 10 ∧ slotFloat rf 0 0 13 = 0 ∧
      slotFloat rf 0 0 14 = 0 ∧
      slotFloat rf 0 1 12 = -10 ∧ slotFloat rf 0 1 13 = 0 ∧
      slotFloat rf 0 1 14 = 0 ∧
      slotModel rf 0 0 ≠ slotModel rf 0 1 ∧
      ∃ res, rf.render [0] none = .ok res ∧
        res.draws.map (fun d => (d.objectIndex, d.bindGroup0Offset)) =
          [(0, 0), (1, 256)] := by
  have h00 : slotFloat c4expected 0 0 12 = 10 := by
    simp only [slotFloat, c4expected, limitsStd]
    norm_num
    rw [writeFloats_miss_lt _ _ _ _ (by norm_num)]
    rw [show (48 : ℕ) = 0 + 4 * 12 by norm_num,
        writeFloats_hit _ _ _ _ (by rw [mvpDefault_length]; norm_num)]
    norm_num [mvpDefault, matToList, Mat4.multiply, Mat4.translate, Mat4.scale,
      Mat4.rotate, Mat4.identity]
  have h01 : slotFloat c4expected 0 0 13 = 0 := by
    simp only [slotFloat, c4expected, limitsStd]
    norm_num
    rw [writeFloats_miss_lt _ _ _ _ (by norm_num)]
    rw [show (52 : ℕ) = 0 + 4 * 13 by norm_num,
        writeFloats_hit _ _ _ _ (by rw [mvpDefault_length]; norm_num)]
    norm_num [mvpDefault, matToList, Mat4.multiply, Mat4.translate, Mat4.scale,
      Mat4.rotate, Mat4.identity]
  have h02 : slotFloat c4expected 0 0 14 = 0 := by
    simp only [slotFloat, c4expected, limitsStd]
    norm_num
    rw [writeFloats_miss_lt _ _ _ _ (by norm_num)]
    rw [show (56 : ℕ) = 0 + 4 * 14 by norm_num,
        writeFloats_hit _ _ _ _ (by rw [mvpDefault_length]; norm_num)]
    norm_num [mvpDefault, matToList, Mat4.multiply, Mat4.translate, Mat4.scale,
      Mat4.rotate, Mat4.identity]
  have h10 : slotFloat c4expected 0 1 12 = -10 := by
    simp only [slotFloat, c4expected, limitsStd]
    norm_num
    rw [show (304 : ℕ) = 256 + 4 * 12 by norm_num,
        writeFloats_hit _ _ _ _ (by rw [mvpDefault_length]; norm_num)]
    norm_num [mvpDefault, matToList, Mat4.multiply, Mat4.translate, Mat4.scale,
      Mat4.rotate, Mat4.identity]
  have h11 : slotFloat c4expected 0 1 13 = 0 := by
    simp only [slotFloat, c4expected, limitsStd]
    norm_num
    rw [show (308 : ℕ) = 256 + 4 * 13 by norm_num,
        writeFloats_hit _ _ _ _ (by rw [mvpDefault_length]; norm_num)]
    norm_num [mvpDefault, matToList, Mat4.multiply, Mat4.translate, Mat4.scale,
      Mat4.rotate, Mat4.identity]
  have h12 : slotFloat c4expected 0 1 14 = 0 := by
    simp only [slotFloat, c4expected, limitsStd]
    norm_num
    rw [show (312 : ℕ) = 256 + 4 * 14 by norm_num,
        writeFloats_hit _ _ _ _ (by rw [mvpDefault_length]; norm_num)]
    norm_num [mvpDefault, matToList, Mat4.multiply, Mat4.translate, Mat4.scale,
      Mat4.rotate, Mat4.identity]
  refine ⟨c4expected, by rfl, h00, h01, h02, h10, h11, h12, ?_, ?_⟩
  · intro hEq
    have h12eq := congrArg (fun l => l.getD 12 0) hEq
    simp only [slotModel,
      show List.range 16 = [0,1,2,3,4,5,6,7,8,9,10,11,12,13,14,15] from rfl,
      List.map_cons, List.map_nil, List.getD_cons_succ, List.getD_cons_zero] at h12eq
    rw [h00, h10] at h12eq
    norm_num at h12eq
  · exact ⟨_, rfl, by rfl⟩


/-- C1: the claim says updateObject writes each object's packed MVP data
at the same `stride * slotIndex` offset at which render binds bind group
0, with stride the backend's minimum *uniform*-buffer offset alignment —
the alignment also used to size the shared buffer.  On a device whose
storage alignment (128) differs from its uniform alignment (256), after
updating object 1 with translate [10,0,0]: the buffer is indeed sized
with the uniform alignment (claimed sizing holds), but the model
translation 10 was written at byte 128*1 + 48 (storage stride), while
render binds object 1's bind group at dynamic offset 256*1, where the
corresponding model-translation float still reads 0 — the write and bind
offsets disagree. -/
theorem updateObject_write_offset_mismatches_render_bind :
    ∃ rf : Renderer, c1final = .ok rf ∧
      (∃ p, rf.pipelines.get? 0 = some p ∧
        p.bindGroup0.size = rf.limits.minUniformBufferOffsetAlignment * 2 ∧
        p.bindGroup0.entry0 (rf.limits.minStorageBufferOffsetAlignment * 1 + 4 * 12) = 10 ∧
        p.bindGroup0.entry0 (rf.limits.minUniformBufferOffsetAlignment * 1 + 4 * 12) = 0) ∧
      (∃ res, rf.render [0] none = .ok res ∧
        res.draws.map (fun d => d.bindGroup0Offset) =
          [rf.limits.minUniformBufferOffsetAlignment * 0,
           rf.limits.minUniformBufferOffsetAlignment * 1]) ∧
      rf.limits.minStorageBufferOffsetAlignment * 1 ≠
        rf.limits.minUniformBufferOffsetAlignment * 1 := by
  refine ⟨c1expected, by rfl, ⟨_, rfl, by rfl, ?_, ?_⟩, ⟨_, rfl, by rfl⟩, by
    norm_num [c1expected, limitsSplit]⟩
  · show (writeFloats (writeFloats (writeFloats
        (fun _ => 0) 0 (mvpDefault 0 0 0)) 128 (mvpDefault 0 0 0))
        128 (mvpDefault 10 0 0))
      (c1expected.limits.minStorageBufferOffsetAlignment * 1 + 4 * 12) = 10
    norm_num [c1expected, limitsSplit]
    rw [show (176 : ℕ) = 128 + 4 * 12 by norm_num,
        writeFloats_hit _ _ _ _ (by rw [mvpDefault_length]; norm_num)]
    norm_num [mvpDefault, matToList, Mat4.multiply, Mat4.translate, Mat4.scale,
      Mat4.rotate, Mat4.identity]
  · show (writeFloats (writeFloats (writeFloats
        (fun _ => 0) 0 (mvpDefault 0 0 0)) 128 (mvpDefault 0 0 0))
        128 (mvpDefault 10 0 0))
      (c1expected.limits.minUniformBufferOffsetAlignment * 1 + 4 * 12) = 0
    norm_num [c1expected, limitsSplit]
    rw [show (304 : ℕ) = 128 + 4 * 44 by norm_num,
        writeFloats_hit _ _ _ _ (by rw [mvpDefault_length]; norm_num)]
    norm_num [mvpDefault, matToList, Mat4.multiply, Mat4.translate, Mat4.scale,
      Mat4.rotate, Mat4.identity, Mat4.orthoM]

end Quickdraw
